import Mathlib

/-!
Shallow embedding of `bin2svf.c`, the HiSilicon D02 BIOS binary to SVF
conversion tool.

Bytes are modelled as `Nat` values below 256 and 32-bit words as `Nat`
values below 2 ^ 32.  Text output is modelled as a `List String` of output
lines: each `printf` fragment up to a newline is one line, and the `\n\n`
that ends most commands contributes the command line followed by one blank
line.  The `printf` calls of `send_page_program` / `send_page_verify` that
build one line from several fragments (`"SDR 2080 TDI ("`, the hex dump,
`");"`) are modelled as the concatenated single line.

The C struct `page_pattern` holds a 256-byte data array followed by a
`uint32_t addr_and_op` field.  `htonl` is modelled by `hton32`, the byte
swap of a 32-bit value, as on the little-endian hosts the tool is built
for; reading the stored `uint32_t` back from memory byte by byte (which is
what `hexdump` does to the struct) therefore yields the little-endian
bytes of the stored value, `le_bytes_32`.
-/

namespace Bin2svf

/-- Flag for `generate_svf` (C macro `MODE_ERASE`). -/
def MODE_ERASE : Nat := 0x1

/-- Flag for `generate_svf` (C macro `MODE_WRITE`). -/
def MODE_WRITE : Nat := 0x2

/-- Flag for `generate_svf` (C macro `MODE_VERIFY`). -/
def MODE_VERIFY : Nat := 0x4

/-- Page operation opcode (C macro `PAGE_OP_PROGRAM_TDI`). -/
def PAGE_OP_PROGRAM_TDI : Nat := 0x40

/-- Page operation opcode (C macro `PAGE_OP_VERIFY_TDI`). -/
def PAGE_OP_VERIFY_TDI : Nat := 0xc0

/-- Page operation opcode (C macro `PAGE_OP_VERIFY_TDO`). -/
def PAGE_OP_VERIFY_TDO : Nat := 0x00

/-- Page operation opcode (C macro `PAGE_OP_VERIFY_MASK`). -/
def PAGE_OP_VERIFY_MASK : Nat := 0x00

/-- The C `enum chip_size`. -/
inductive ChipSize where
  | SIZE_4MB
  | SIZE_8MB
  | SIZE_16MB

/-- The C file-scope constant `static const int chip_size = SIZE_16MB;`. -/
def chip_size : ChipSize := ChipSize.SIZE_16MB

/-- C `erase_time`: erase wait in milliseconds per chip size.  The C
`default:` branch is unreachable for the three-valued enum, so the Lean
version is total over `ChipSize`. -/
def erase_time : ChipSize → Nat
  | ChipSize.SIZE_4MB => 80000
  | ChipSize.SIZE_8MB => 160000
  | ChipSize.SIZE_16MB => 250000

/-- The accumulator of the C bit-reversal loops after `n` iterations:
`for (i = 0; i < n; i++) res |= ((v >> i) & 1) << (w - 1 - i);`
where `w` is the bit width (8 or 32). -/
def revBitsAux (w v : Nat) : Nat → Nat
  | 0 => 0
  | n + 1 => revBitsAux w v n ||| (((v >>> n) &&& 1) <<< (w - 1 - n))

/-- C `reverse_bits_8` (MSB becomes LSB). -/
def reverse_bits_8 (v : Nat) : Nat := revBitsAux 8 v 8

/-- C `reverse_bits_32` (MSB becomes LSB). -/
def reverse_bits_32 (v : Nat) : Nat := revBitsAux 32 v 32

/-- `htonl` on a little-endian host: swap the four bytes of a 32-bit
value. -/
def hton32 (x : Nat) : Nat :=
  ((x &&& 0xff) <<< 24) ||| (((x >>> 8) &&& 0xff) <<< 16) |||
    (((x >>> 16) &&& 0xff) <<< 8) ||| ((x >>> 24) &&& 0xff)

/-- The four bytes of a `uint32_t` as laid out in little-endian host
memory, lowest address first. -/
def le_bytes_32 (x : Nat) : List Nat :=
  [x &&& 0xff, (x >>> 8) &&& 0xff, (x >>> 16) &&& 0xff, (x >>> 24) &&& 0xff]

/-- The C `struct page_pattern`: a 256-byte data array (`data`, listed in
array index order 0..255) followed by a `uint32_t addr_and_op`. -/
structure page_pattern where
  data : List Nat
  addr_and_op : Nat

/-- C `create_page_pattern`.  The two C loops write
`pattern->data[255-i] = reverse_bits_8(buf[i])` for `i < len` and
`pattern->data[255-i] = 0xff` for `len <= i < 256`, so in array index
order the data is `256 - len` bytes of `0xff` followed by the
bit-reversed input bytes in reverse order.  The C `len` argument is the
length of the byte list `buf` (the callers pass `NULL, 0` for an empty
pattern, modelled as `[]`). -/
def create_page_pattern (buf : List Nat) (page_addr op : Nat) : page_pattern where
  data := List.replicate (256 - buf.length) 0xff ++ (buf.map reverse_bits_8).reverse
  addr_and_op :=
    (if op = PAGE_OP_VERIFY_TDO ∨ op = PAGE_OP_VERIFY_MASK then 0
     else hton32 (reverse_bits_32 page_addr)) ||| hton32 op

/-- The 260 bytes of a `struct page_pattern` in memory order: the data
array followed by the little-endian host bytes of `addr_and_op` (the
struct has no padding: 256 is a multiple of 4). -/
def pattern_bytes (p : page_pattern) : List Nat := p.data ++ le_bytes_32 p.addr_and_op

/-- The character `printf("%x")` uses for one hex digit `n < 16`:
`0`..`9` then lowercase `a`..`f`. -/
def hex_char (n : Nat) : Char :=
  if n < 10 then Char.ofNat (48 + n) else Char.ofNat (87 + n)

/-- The two characters of `printf("%02x", b)` for a byte `b`. -/
def byte_hex_chars (b : Nat) : List Char := [hex_char (b / 16), hex_char (b % 16)]

/-- C `hexdump`: each byte printed as two hex digits via `"%02x"`, in
buffer order.  The `uppercase` parameter is accepted but never read by
the C function body. -/
def hexdump (buf : List Nat) (uppercase : Bool) : String :=
  String.mk (buf.foldr (fun b acc => byte_hex_chars b ++ acc) [])

/-- Rendering of `printf("%08x", x)`: eight lowercase hex digits. -/
def hex_32 (x : Nat) : String :=
  String.mk (byte_hex_chars ((x >>> 24) &&& 0xff) ++ byte_hex_chars ((x >>> 16) &&& 0xff) ++
    byte_hex_chars ((x >>> 8) &&& 0xff) ++ byte_hex_chars (x &&& 0xff))

/-- Rendering of C `"%G"` applied to `(float)ms / 1000`, exact for the
argument values the program passes (2, 100, 80000, 160000, 250000). -/
def format_g (ms : Nat) : String :=
  if ms % 1000 = 0 then toString (ms / 1000)
  else if ms % 100 = 0 then "0." ++ toString (ms / 100)
  else if ms % 10 = 0 then "0.0" ++ toString (ms / 10)
  else "0.00" ++ toString ms

/-- C `trst`: `printf("TRST %s;\n\n", on ? "ON" : "OFF")`; the C `on`
parameter is renamed `b` here. -/
def trst (b : Bool) : List String :=
  ["TRST " ++ (if b then "ON" else "OFF") ++ ";", ""]

/-- C `set_frequency`. -/
def set_frequency : List String := ["FREQUENCY 5.00e+006 HZ;", ""]

/-- C `write_enable`. -/
def write_enable : List String := ["! Write enable", "SDR 8 TDI(60);", ""]

/-- C `write_disable`. -/
def write_disable : List String := ["! Write disable", "SDR 8 TDI(20);", ""]

/-- C `wait`. -/
def wait (ms : Nat) : List String :=
  ["RUNTEST IDLE " ++ format_g ms ++ " SEC ENDSTATE IDLE;", ""]

/-- C `clear_software_protect`. -/
def clear_software_protect : List String :=
  ["! Clear software protect", "SDR 16 TDI(0080);", ""]

/-- C `check_no_software_protect`. -/
def check_no_software_protect : List String :=
  ["! Check no software protect", "SDR 16 TDI(ffa0) TDO(c6ff) MASK(3900);", ""]

/-- C `check_status`. -/
def check_status : List String :=
  ["! Check status", "SDR 16 TDI(ffa0) TDO(0000) MASK(8000);", ""]

/-- C `bulk_erase`. -/
def bulk_erase : List String := ["! Bulk erase", "SDR 8 TDI(e3);", ""]

/-- C `send_page_program` (its `create_page_pattern` call always returns 0,
so the early-return error path is dead and the function always emits the
full block and returns 0). -/
def send_page_program (buf : List Nat) (addr : Nat) : List String :=
  write_enable ++
    ["! Program page: 0x" ++ hex_32 addr,
     "SDR 2080 TDI (" ++
       hexdump (pattern_bytes (create_page_pattern buf addr PAGE_OP_PROGRAM_TDI)) false ++
       ");",
     ""] ++
    write_disable ++ wait 2

/-- C `send_page_verify`: three coupled lines of one SDR command.  The
TDI and MASK patterns are built from `NULL, 0` (an empty byte list), the
TDO pattern from the page content; the TDI and MASK dumps pass
`uppercase = true` to `hexdump`. -/
def send_page_verify (buf : List Nat) (addr : Nat) : List String :=
  ["! Verify page: 0x" ++ hex_32 addr,
   "SDR 2080 TDI (" ++
     hexdump (pattern_bytes (create_page_pattern [] addr PAGE_OP_VERIFY_TDI)) true ++ ")",
   "TDO (" ++
     hexdump (pattern_bytes (create_page_pattern buf addr PAGE_OP_VERIFY_TDO)) false ++ ")",
   "MASK (" ++
     hexdump (pattern_bytes (create_page_pattern [] addr PAGE_OP_VERIFY_MASK)) true ++ ");"]

/-- One iteration of the do/while page loop body of `generate_svf`:
the lines it emits, together with the flag telling whether a program or
verify step ran in it (each such step assigns `rc = 0`).  `written` is
set exactly when `send_page_program` is called; the verify condition is
`(mode & MODE_VERIFY) || ((mode & MODE_WRITE) && written)`. -/
def page_body (page : List Nat) (addr mode : Nat) : List String × Bool :=
  let all_ones := page.all (fun b => b == 0xff)
  let written := (mode &&& MODE_WRITE != 0) && (!(mode &&& MODE_ERASE != 0) || !all_ones)
  let verify := (mode &&& MODE_VERIFY != 0) || ((mode &&& MODE_WRITE != 0) && written)
  ((if written then send_page_program page addr else []) ++
      (if verify then send_page_verify page addr else []),
    written || verify)

/-- The successive `(page, addr)` pairs the do/while loop of
`generate_svf` processes: each iteration takes `blen = min(len, 256)`
bytes and advances `buf`, `addr` and `len` by `blen`; the loop body runs
once even for an empty buffer and the loop exits when `len` reaches 0. -/
def loop_pages (buf : List Nat) (addr : Nat) : List (List Nat × Nat) :=
  let blen := min buf.length 256
  if h : buf.length ≤ 256 then [(buf.take blen, addr)]
  else (buf.take blen, addr) :: loop_pages (buf.drop blen) (addr + blen)
termination_by buf.length
decreasing_by
  simp only [List.length_drop]
  omega

/-- The do/while page loop of `generate_svf`: emitted lines and the final
value of the local variable `rc`.  `rc` enters the loop unassigned
(modelled as `none`) and is set to `some 0` by every program or verify
step (their C return value is always 0, so the `rc < 0` abort paths are
dead). -/
def page_loop (buf : List Nat) (addr mode : Nat) (rc : Option Int) :
    List String × Option Int :=
  let blen := min buf.length 256
  let body := page_body (buf.take blen) addr mode
  let rc2 := if body.2 then some 0 else rc
  if h : buf.length ≤ 256 then (body.1, rc2)
  else
    let rest := page_loop (buf.drop blen) (addr + blen) mode rc2
    (body.1 ++ rest.1, rest.2)
termination_by buf.length
decreasing_by
  simp only [List.length_drop]
  omega

/-- The lines `generate_svf` emits before the page loop: reset release,
frequency, unlock sequence, unlock check, and the optional erase phase. -/
def preamble (mode : Nat) : List String :=
  trst false ++ set_frequency ++ write_enable ++ clear_software_protect ++ write_disable ++
    wait 100 ++ check_no_software_protect ++
    (if mode &&& MODE_ERASE != 0 then
      write_enable ++ bulk_erase ++ write_disable ++ wait (erase_time chip_size) ++ check_status
    else [])

/-- C `generate_svf`: the emitted lines and the returned value of the
local `rc`, which is declared without an initializer (`none` models the
unassigned state; reading it unassigned is the C indeterminate-value
case).  The loop never takes the `goto out` error path, so `trst(1)` is
always reached. -/
def generate_svf (buf : List Nat) (addr mode : Nat) : List String × Option Int :=
  let res := page_loop buf addr mode none
  (preamble mode ++ res.1 ++ trst true, res.2)

/-- The sixteen characters `printf("%x")` can produce for a single hex
digit: decimal digits and lowercase letters only. -/
def hex_lower_chars : List Char :=
  (List.range 10).map (fun n => Char.ofNat (48 + n)) ++
    (List.range 6).map (fun n => Char.ofNat (97 + n))

/-! ## Bit-reversal lemmas -/

theorem revBitsAux_testBit (w v n j : Nat) (hn : n ≤ w) :
    (revBitsAux w v n).testBit j = true ↔
      w - n ≤ j ∧ j < w ∧ v.testBit (w - 1 - j) = true := by
  induction n with
  | zero =>
    simp only [revBitsAux, Nat.zero_testBit, Bool.false_eq_true, false_iff]
    rintro ⟨h1, h2, -⟩
    omega
  | succ n ih =>
    have hn' : n ≤ w := by omega
    simp only [revBitsAux, Nat.testBit_or, Bool.or_eq_true, ih hn',
      Nat.testBit_shiftLeft, Nat.testBit_and, Nat.testBit_shiftRight,
      Bool.and_eq_true, decide_eq_true_eq,
      Nat.testBit_one_eq_true_iff_self_eq_zero]
    constructor
    · rintro (⟨h1, h2, h3⟩ | ⟨h1, ⟨h3, h4⟩⟩)
      · exact ⟨by omega, h2, h3⟩
      · have he : w - 1 - j = n := by omega
        rw [h4, Nat.add_zero] at h3
        rw [he]
        exact ⟨by omega, by omega, h3⟩
    · rintro ⟨h1, h2, h3⟩
      by_cases hc : w - n ≤ j
      · exact Or.inl ⟨hc, h2, h3⟩
      · right
        have he : w - 1 - j = n := by omega
        rw [he] at h3
        have h5 : j - (w - 1 - n) = 0 := by omega
        refine ⟨by omega, ⟨?_, h5⟩⟩
        rw [h5, Nat.add_zero]
        exact h3

theorem revBitsAux_lt (w v n : Nat) (hn : n ≤ w) : revBitsAux w v n < 2 ^ w := by
  induction n with
  | zero => exact Nat.two_pow_pos w
  | succ n ih =>
    refine Nat.or_lt_two_pow (ih (by omega)) ?_
    have h1 : (v >>> n) &&& 1 ≤ 1 := Nat.and_le_right
    calc ((v >>> n) &&& 1) <<< (w - 1 - n) = ((v >>> n) &&& 1) * 2 ^ (w - 1 - n) :=
          Nat.shiftLeft_eq _ _
      _ ≤ 1 * 2 ^ (w - 1 - n) := Nat.mul_le_mul_right _ h1
      _ = 2 ^ (w - 1 - n) := Nat.one_mul _
      _ < 2 ^ w := Nat.pow_lt_pow_right (by omega) (by omega)

theorem reverse_bits_8_lt (v : Nat) : reverse_bits_8 v < 256 :=
  revBitsAux_lt 8 v 8 (Nat.le_refl 8)

theorem reverse_bits_32_lt (v : Nat) : reverse_bits_32 v < 2 ^ 32 :=
  revBitsAux_lt 32 v 32 (Nat.le_refl 32)

theorem reverse_bits_8_testBit (v j : Nat) :
    (reverse_bits_8 v).testBit j = true ↔ j < 8 ∧ v.testBit (7 - j) = true := by
  have h := revBitsAux_testBit 8 v 8 j (Nat.le_refl 8)
  rw [reverse_bits_8]
  rw [h]
  constructor
  · rintro ⟨_, h2, h3⟩
    exact ⟨h2, h3⟩
  · rintro ⟨h2, h3⟩
    exact ⟨by omega, h2, h3⟩

theorem reverse_bits_32_testBit (v j : Nat) :
    (reverse_bits_32 v).testBit j = true ↔ j < 32 ∧ v.testBit (31 - j) = true := by
  have h := revBitsAux_testBit 32 v 32 j (Nat.le_refl 32)
  rw [reverse_bits_32]
  rw [h]
  constructor
  · rintro ⟨_, h2, h3⟩
    exact ⟨h2, h3⟩
  · rintro ⟨h2, h3⟩
    exact ⟨by omega, h2, h3⟩

theorem reverse_bits_8_involutive (v : Nat) (h : v < 256) :
    reverse_bits_8 (reverse_bits_8 v) = v := by
  apply Nat.eq_of_testBit_eq
  intro j
  by_cases hj : j < 8
  · rw [Bool.eq_iff_iff]
    rw [reverse_bits_8_testBit, reverse_bits_8_testBit]
    constructor
    · rintro ⟨-, -, h3⟩
      rw [show 7 - (7 - j) = j by omega] at h3
      exact h3
    · intro hb
      refine ⟨hj, by omega, ?_⟩
      rw [show 7 - (7 - j) = j by omega]
      exact hb
  · have hle : (2 : Nat) ^ 8 ≤ 2 ^ j := Nat.pow_le_pow_right (by omega) (by omega)
    have ha : v < 2 ^ j := by
      have : v < 2 ^ 8 := by norm_num [h]
      omega
    have hb : reverse_bits_8 (reverse_bits_8 v) < 2 ^ j := by
      have := reverse_bits_8_lt (reverse_bits_8 v)
      have : reverse_bits_8 (reverse_bits_8 v) < 2 ^ 8 := by norm_num [this]
      omega
    rw [Nat.testBit_lt_two_pow ha, Nat.testBit_lt_two_pow hb]

theorem reverse_bits_32_involutive (u : Nat) (h : u < 2 ^ 32) :
    reverse_bits_32 (reverse_bits_32 u) = u := by
  apply Nat.eq_of_testBit_eq
  intro j
  by_cases hj : j < 32
  · rw [Bool.eq_iff_iff]
    rw [reverse_bits_32_testBit, reverse_bits_32_testBit]
    constructor
    · rintro ⟨-, -, h3⟩
      rw [show 31 - (31 - j) = j by omega] at h3
      exact h3
    · intro hb
      refine ⟨hj, by omega, ?_⟩
      rw [show 31 - (31 - j) = j by omega]
      exact hb
  · have hle : (2 : Nat) ^ 32 ≤ 2 ^ j := Nat.pow_le_pow_right (by omega) (by omega)
    have ha : u < 2 ^ j := Nat.lt_of_lt_of_le h hle
    have hb : reverse_bits_32 (reverse_bits_32 u) < 2 ^ j :=
      Nat.lt_of_lt_of_le (reverse_bits_32_lt _) hle
    rw [Nat.testBit_lt_two_pow ha, Nat.testBit_lt_two_pow hb]

/-- Bool-valued form of `reverse_bits_32_testBit`. -/
theorem reverse_bits_32_testBit_eq (v j : Nat) :
    (reverse_bits_32 v).testBit j = (decide (j < 32) && v.testBit (31 - j)) := by
  rw [Bool.eq_iff_iff, reverse_bits_32_testBit]
  simp [Bool.and_eq_true, decide_eq_true_eq]

/-- C8: reverse_bits_8 applied twice to an 8-bit value gives the value
back, and reverse_bits_32 applied twice to a 32-bit value gives the
value back. -/
theorem c8_reverse_involution (v u : Nat) (h8 : v < 256) (h32 : u < 2 ^ 32) :
    reverse_bits_8 (reverse_bits_8 v) = v ∧ reverse_bits_32 (reverse_bits_32 u) = u :=
  ⟨reverse_bits_8_involutive v h8, reverse_bits_32_involutive u h32⟩

/-- Witness for C8 at v = 0xb7, u = 0x12345678. -/
theorem c8_reverse_involution_witness :
    (0xb7 : Nat) < 256 ∧ (0x12345678 : Nat) < 2 ^ 32 ∧
      (reverse_bits_8 (reverse_bits_8 0xb7) = 0xb7 ∧
        reverse_bits_32 (reverse_bits_32 0x12345678) = 0x12345678) :=
  ⟨by decide, by decide, c8_reverse_involution 0xb7 0x12345678 (by decide) (by decide)⟩

/-! ## Disjointness of the address and opcode fields -/

theorem lor_eq_add_of_land_eq_zero (a : Nat) :
    ∀ b : Nat, a &&& b = 0 → a ||| b = a + b := by
  induction a using Nat.binaryRec with
  | z =>
    intro b _
    simp
  | f bo n ih =>
    intro b hb
    induction b using Nat.binaryRec with
    | z => simp
    | f b1 m _ =>
      rw [Nat.land_bit, Nat.bit_eq_zero_iff] at hb
      obtain ⟨hnm, hbb⟩ := hb
      rw [Nat.lor_bit, ih m hnm, Nat.bit_val, Nat.bit_val, Nat.bit_val]
      cases bo <;> cases b1 <;> simp at hbb ⊢ <;> omega

theorem hton32_of_lt_256 (op : Nat) (h : op < 256) : hton32 op = op <<< 24 := by
  have h1 : op &&& 0xff = op := by
    have h2 := Nat.and_pow_two_sub_one_eq_mod op 8
    norm_num at h2
    rw [h2, Nat.mod_eq_of_lt h]
  have hs : ∀ k, 8 ≤ k → op >>> k = 0 := by
    intro k hk
    rw [Nat.shiftRight_eq_div_pow]
    apply Nat.div_eq_of_lt
    calc op < 256 := h
      _ ≤ 2 ^ k := by
        have : (2 : Nat) ^ 8 ≤ 2 ^ k := Nat.pow_le_pow_right (by omega) hk
        norm_num at this
        exact this
  rw [hton32, h1, hs 8 (by omega), hs 16 (by omega), hs 24 (by omega)]
  simp

/-- Bits 0..7 of a value divisible by 256 are all clear. -/
theorem testBit_eq_false_of_mod_256 (pa i : Nat) (h : pa % 256 = 0) (hi : i < 8) :
    pa.testBit i = false := by
  have h256 : pa % 2 ^ 8 = 0 := by norm_num [h]
  have hm := Nat.testBit_mod_two_pow pa 8 i
  rw [h256, Nat.zero_testBit] at hm
  simp [hi] at hm
  exact hm

/-- Bits 24 and above of a value below 2 ^ 24 are all clear. -/
theorem testBit_eq_false_of_lt_two_pow_24 (pa i : Nat) (h : pa < 2 ^ 24) (hi : 24 ≤ i) :
    pa.testBit i = false := by
  apply Nat.testBit_lt_two_pow
  exact Nat.lt_of_lt_of_le h (Nat.pow_le_pow_right (by omega) hi)

/-- For a page address that is a multiple of 256 and below 16 MiB, the
reversed address has its low byte clear. -/
theorem rev32_addr_low_byte (pa : Nat) (h2 : pa < 2 ^ 24) :
    reverse_bits_32 pa &&& 0xff = 0 := by
  apply Nat.eq_of_testBit_eq
  intro j
  rw [Nat.testBit_and, Nat.zero_testBit, reverse_bits_32_testBit_eq]
  by_cases hj : j < 8
  · rw [testBit_eq_false_of_lt_two_pow_24 pa (31 - j) h2 (by omega)]
    simp
  · have hf : (0xff : Nat).testBit j = false := by
      apply Nat.testBit_lt_two_pow
      calc (0xff : Nat) < 2 ^ 8 := by norm_num
        _ ≤ 2 ^ j := Nat.pow_le_pow_right (by omega) (by omega)
    rw [hf]
    simp

/-- For a page address that is a multiple of 256, the reversed address
has its top byte clear. -/
theorem rev32_addr_high_byte (pa : Nat) (h1 : pa % 256 = 0) :
    reverse_bits_32 pa >>> 24 = 0 := by
  apply Nat.eq_of_testBit_eq
  intro j
  rw [Nat.testBit_shiftRight, Nat.zero_testBit, reverse_bits_32_testBit_eq]
  by_cases hj : 24 + j < 32
  · rw [testBit_eq_false_of_mod_256 pa (31 - (24 + j)) h1 (by omega)]
    simp
  · simp [hj]

/-- The byte-swapped reversed page address occupies only bits 8..23. -/
theorem hton32_rev32_lt (pa : Nat) (h1 : pa % 256 = 0) (h2 : pa < 2 ^ 24) :
    hton32 (reverse_bits_32 pa) < 2 ^ 24 := by
  rw [hton32, rev32_addr_low_byte pa h2, rev32_addr_high_byte pa h1]
  simp only [Nat.zero_shiftLeft, Nat.zero_and, Nat.zero_or, Nat.or_zero]
  apply Nat.or_lt_two_pow
  · calc (reverse_bits_32 pa >>> 8 &&& 0xff) <<< 16
        = (reverse_bits_32 pa >>> 8 &&& 0xff) * 2 ^ 16 := Nat.shiftLeft_eq _ _
      _ ≤ 0xff * 2 ^ 16 := Nat.mul_le_mul_right _ Nat.and_le_right
      _ < 2 ^ 24 := by norm_num
  · calc (reverse_bits_32 pa >>> 16 &&& 0xff) <<< 8
        = (reverse_bits_32 pa >>> 16 &&& 0xff) * 2 ^ 8 := Nat.shiftLeft_eq _ _
      _ ≤ 0xff * 2 ^ 8 := Nat.mul_le_mul_right _ Nat.and_le_right
      _ < 2 ^ 24 := by norm_num

/-- A value below 2 ^ 24 shares no set bit with a value shifted left by
24 places. -/
theorem land_shiftLeft_24_eq_zero (a b : Nat) (ha : a < 2 ^ 24) :
    a &&& (b <<< 24) = 0 := by
  apply Nat.eq_of_testBit_eq
  intro j
  rw [Nat.testBit_and, Nat.testBit_shiftLeft, Nat.zero_testBit]
  by_cases hj : 24 ≤ j
  · rw [Nat.testBit_lt_two_pow (Nat.lt_of_lt_of_le ha (Nat.pow_le_pow_right (by omega) hj))]
    simp
  · simp [hj]

/-- C6: for every page address that is a multiple of 256 and below 16
MiB and every opcode the program uses, the big-endian-packed reversed
address and the big-endian-packed opcode have no set bit in common, and
their bitwise OR equals their sum. -/
theorem c6_addr_op_disjoint (pa op : Nat) (h1 : pa % 256 = 0) (h2 : pa < 2 ^ 24)
    (h3 : op = PAGE_OP_PROGRAM_TDI ∨ op = PAGE_OP_VERIFY_TDI ∨
      op = PAGE_OP_VERIFY_TDO ∨ op = PAGE_OP_VERIFY_MASK) :
    hton32 (reverse_bits_32 pa) &&& hton32 op = 0 ∧
      hton32 (reverse_bits_32 pa) ||| hton32 op =
        hton32 (reverse_bits_32 pa) + hton32 op := by
  have hop : op < 256 := by
    rcases h3 with h | h | h | h <;> rw [h] <;> decide
  have hlt := hton32_rev32_lt pa h1 h2
  have hand : hton32 (reverse_bits_32 pa) &&& hton32 op = 0 := by
    rw [hton32_of_lt_256 op hop]
    exact land_shiftLeft_24_eq_zero _ op hlt
  exact ⟨hand, lor_eq_add_of_land_eq_zero _ _ hand⟩

/-- Witness for C6 at the default base address 0x800000 and the program
opcode 0x40. -/
theorem c6_addr_op_disjoint_witness :
    (0x800000 : Nat) % 256 = 0 ∧ (0x800000 : Nat) < 2 ^ 24 ∧
      ((0x40 : Nat) = PAGE_OP_PROGRAM_TDI ∨ (0x40 : Nat) = PAGE_OP_VERIFY_TDI ∨
        (0x40 : Nat) = PAGE_OP_VERIFY_TDO ∨ (0x40 : Nat) = PAGE_OP_VERIFY_MASK) ∧
      (hton32 (reverse_bits_32 0x800000) &&& hton32 0x40 = 0 ∧
        hton32 (reverse_bits_32 0x800000) ||| hton32 0x40 =
          hton32 (reverse_bits_32 0x800000) + hton32 0x40) :=
  ⟨by decide, by decide, Or.inl (by decide),
    c6_addr_op_disjoint 0x800000 0x40 (by decide) (by decide) (Or.inl (by decide))⟩

/-! ## Page pattern encoder -/

theorem create_page_pattern_data_length (buf : List Nat) (pa op : Nat)
    (hL : buf.length ≤ 256) : (create_page_pattern buf pa op).data.length = 256 := by
  simp [create_page_pattern]
  omega

theorem create_page_pattern_data_get (buf : List Nat) (pa op : Nat) (i : Nat)
    (hL : buf.length ≤ 256) (hi : i < buf.length) :
    (create_page_pattern buf pa op).data.getD (255 - i) 0 =
      reverse_bits_8 (buf.getD i 0) := by
  simp only [create_page_pattern, List.getD_eq_getElem?_getD]
  rw [List.getElem?_append_right (by simp; omega)]
  simp only [List.length_replicate]
  rw [List.getElem?_reverse' (255 - i - (256 - buf.length)) i (by simp; omega)]
  rw [List.getElem?_map]
  rw [List.getElem?_eq_getElem hi]
  rfl

theorem create_page_pattern_data_pad (buf : List Nat) (pa op : Nat) (p : Nat)
    (hp : p < 256 - buf.length) :
    (create_page_pattern buf pa op).data.getD p 0 = 0xff := by
  simp only [create_page_pattern, List.getD_eq_getElem?_getD]
  rw [List.getElem?_append_left (by simp; omega)]
  rw [List.getElem?_replicate_of_lt hp]
  rfl

/-- C3: for inputs of length at most 256, `create_page_pattern` yields
exactly 256 data bytes; input byte `i` lands bit-reversed at output
position `255 - i`; positions 0 up to `255 - len` hold 0xff; and
`addr_and_op` is the big-endian packing (`hton32`) of the reversed page
address OR the big-endian-packed opcode, with a zero address
contribution for the `VERIFY_TDO` / `VERIFY_MASK` opcodes. -/
theorem c3_page_pattern_encoding (buf : List Nat) (pa op : Nat) (hL : buf.length ≤ 256) :
    (create_page_pattern buf pa op).data.length = 256 ∧
      (∀ i, i < buf.length →
        (create_page_pattern buf pa op).data.getD (255 - i) 0 =
          reverse_bits_8 (buf.getD i 0)) ∧
      (∀ p, p < 256 - buf.length → (create_page_pattern buf pa op).data.getD p 0 = 0xff) ∧
      (create_page_pattern buf pa op).addr_and_op =
        (if op = PAGE_OP_VERIFY_TDO ∨ op = PAGE_OP_VERIFY_MASK then 0
         else hton32 (reverse_bits_32 pa)) ||| hton32 op := by
  refine ⟨create_page_pattern_data_length buf pa op hL, ?_, ?_, rfl⟩
  · intro i hi
    exact create_page_pattern_data_get buf pa op i hL hi
  · intro p hp
    exact create_page_pattern_data_pad buf pa op p hp

/-- Witness for C3 at the spec example input [0x01, 0x02], the default
base address and the program opcode. -/
theorem c3_page_pattern_encoding_witness :
    ([0x01, 0x02] : List Nat).length ≤ 256 ∧
      ((create_page_pattern [0x01, 0x02] 0x800000 PAGE_OP_PROGRAM_TDI).data.length = 256 ∧
        (∀ i, i < ([0x01, 0x02] : List Nat).length →
          (create_page_pattern [0x01, 0x02] 0x800000 PAGE_OP_PROGRAM_TDI).data.getD (255 - i) 0 =
            reverse_bits_8 (([0x01, 0x02] : List Nat).getD i 0)) ∧
        (∀ p, p < 256 - ([0x01, 0x02] : List Nat).length →
          (create_page_pattern [0x01, 0x02] 0x800000 PAGE_OP_PROGRAM_TDI).data.getD p 0 = 0xff) ∧
        (create_page_pattern [0x01, 0x02] 0x800000 PAGE_OP_PROGRAM_TDI).addr_and_op =
          (if PAGE_OP_PROGRAM_TDI = PAGE_OP_VERIFY_TDO ∨ PAGE_OP_PROGRAM_TDI = PAGE_OP_VERIFY_MASK
           then 0 else hton32 (reverse_bits_32 0x800000)) ||| hton32 PAGE_OP_PROGRAM_TDI) :=
  ⟨by decide, c3_page_pattern_encoding [0x01, 0x02] 0x800000 PAGE_OP_PROGRAM_TDI (by decide)⟩

/-! ## Verify mask pattern and write-skip -/

theorem create_page_pattern_nil_data (pa op : Nat) :
    (create_page_pattern [] pa op).data = List.replicate 256 0xff := by
  simp only [create_page_pattern, List.length_nil, List.map_nil, List.reverse_nil,
    List.append_nil, Nat.sub_zero]

/-- C2 counterexample: at address 0 the VERIFY_MASK pattern built by the
verify emission (from a null buffer) does not have all-zero data
bytes. -/
theorem c2_counterexample_mask_not_zero :
    ¬ ∀ b ∈ (create_page_pattern [] 0 PAGE_OP_VERIFY_MASK).data, b = 0 := by
  intro h
  have hm : (255 : Nat) ∈ (create_page_pattern [] 0 PAGE_OP_VERIFY_MASK).data := by
    rw [create_page_pattern_nil_data]
    exact List.mem_replicate.mpr ⟨by omega, rfl⟩
  exact absurd (h 255 hm) (by omega)

/-- C2 (amended): for every verify-page emission the VERIFY_MASK
pattern's 256 data bytes are all 0xff (an all-ones mask meaning
"compare everything"), its address/opcode field is zero, and its hex
dump forms the MASK line, regardless of the page content or address. -/
theorem c2_verify_mask_all_ones (page : List Nat) (addr : Nat) :
    (create_page_pattern [] addr PAGE_OP_VERIFY_MASK).data = List.replicate 256 0xff ∧
      (create_page_pattern [] addr PAGE_OP_VERIFY_MASK).addr_and_op = 0 ∧
      (send_page_verify page addr).getD 3 "" =
        "MASK (" ++
          hexdump (pattern_bytes (create_page_pattern [] addr PAGE_OP_VERIFY_MASK)) true ++
          ");" := by
  refine ⟨create_page_pattern_nil_data addr PAGE_OP_VERIFY_MASK, ?_, rfl⟩
  rw [show (create_page_pattern [] addr PAGE_OP_VERIFY_MASK).addr_and_op =
      (if PAGE_OP_VERIFY_MASK = PAGE_OP_VERIFY_TDO ∨ PAGE_OP_VERIFY_MASK = PAGE_OP_VERIFY_MASK
       then 0 else hton32 (reverse_bits_32 addr)) ||| hton32 PAGE_OP_VERIFY_MASK from rfl]
  rw [if_pos (Or.inr rfl)]
  decide

/-- Unfolding of the lines component of `page_body`. -/
theorem page_body_fst (page : List Nat) (addr mode : Nat) :
    (page_body page addr mode).1 =
      (if (mode &&& MODE_WRITE != 0 &&
            (!(mode &&& MODE_ERASE != 0) || !(page.all (fun b => b == 0xff)))) then
        send_page_program page addr
      else []) ++
        (if (mode &&& MODE_VERIFY != 0 ||
              (mode &&& MODE_WRITE != 0 &&
                (mode &&& MODE_WRITE != 0 &&
                  (!(mode &&& MODE_ERASE != 0) || !(page.all (fun b => b == 0xff)))))) then
          send_page_verify page addr
        else []) := rfl

/-- Unfolding of the step-ran flag of `page_body`. -/
theorem page_body_snd (page : List Nat) (addr mode : Nat) :
    (page_body page addr mode).2 =
      ((mode &&& MODE_WRITE != 0 &&
          (!(mode &&& MODE_ERASE != 0) || !(page.all (fun b => b == 0xff)))) ||
        (mode &&& MODE_VERIFY != 0 ||
          (mode &&& MODE_WRITE != 0 &&
            (mode &&& MODE_WRITE != 0 &&
              (!(mode &&& MODE_ERASE != 0) || !(page.all (fun b => b == 0xff))))))) := rfl

/-- C4: for an all-0xff page, mode ERASE|WRITE emits nothing for the
page; mode ERASE|WRITE|VERIFY emits exactly the verify block; mode
WRITE alone emits the program block followed by the verify block. -/
theorem c4_write_skip (page : List Nat) (addr : Nat)
    (h : page.all (fun b => b == 0xff) = true) :
    (page_body page addr (MODE_ERASE ||| MODE_WRITE)).1 = [] ∧
      (page_body page addr (MODE_ERASE ||| MODE_WRITE ||| MODE_VERIFY)).1 =
        send_page_verify page addr ∧
      (page_body page addr MODE_WRITE).1 =
        send_page_program page addr ++ send_page_verify page addr := by
  refine ⟨?_, ?_, ?_⟩
  · rw [page_body_fst, h]
    have hw : ((MODE_ERASE ||| MODE_WRITE) &&& MODE_WRITE != 0 &&
        (!((MODE_ERASE ||| MODE_WRITE) &&& MODE_ERASE != 0) || !true)) = false := by decide
    have hv : ((MODE_ERASE ||| MODE_WRITE) &&& MODE_VERIFY != 0 ||
        ((MODE_ERASE ||| MODE_WRITE) &&& MODE_WRITE != 0 &&
          ((MODE_ERASE ||| MODE_WRITE) &&& MODE_WRITE != 0 &&
            (!((MODE_ERASE ||| MODE_WRITE) &&& MODE_ERASE != 0) || !true)))) = false := by
      decide
    rw [hv, hw]
    simp
  · rw [page_body_fst, h]
    have hw : ((MODE_ERASE ||| MODE_WRITE ||| MODE_VERIFY) &&& MODE_WRITE != 0 &&
        (!((MODE_ERASE ||| MODE_WRITE ||| MODE_VERIFY) &&& MODE_ERASE != 0) || !true)) =
          false := by decide
    have hv : ((MODE_ERASE ||| MODE_WRITE ||| MODE_VERIFY) &&& MODE_VERIFY != 0 ||
        ((MODE_ERASE ||| MODE_WRITE ||| MODE_VERIFY) &&& MODE_WRITE != 0 &&
          ((MODE_ERASE ||| MODE_WRITE ||| MODE_VERIFY) &&& MODE_WRITE != 0 &&
            (!((MODE_ERASE ||| MODE_WRITE ||| MODE_VERIFY) &&& MODE_ERASE != 0) || !true)))) =
          true := by decide
    rw [hv, hw]
    simp
  · rw [page_body_fst, h]
    have hw : (MODE_WRITE &&& MODE_WRITE != 0 &&
        (!(MODE_WRITE &&& MODE_ERASE != 0) || !true)) = true := by decide
    have hv : (MODE_WRITE &&& MODE_VERIFY != 0 ||
        (MODE_WRITE &&& MODE_WRITE != 0 &&
          (MODE_WRITE &&& MODE_WRITE != 0 &&
            (!(MODE_WRITE &&& MODE_ERASE != 0) || !true)))) = true := by decide
    rw [hv, hw]
    simp

set_option maxRecDepth 4000 in
/-- Witness for C4 at a full all-0xff page and address 0. -/
theorem c4_write_skip_witness :
    ((List.replicate 256 0xff).all (fun b => b == 0xff) = true) ∧
      ((page_body (List.replicate 256 0xff) 0 (MODE_ERASE ||| MODE_WRITE)).1 = [] ∧
        (page_body (List.replicate 256 0xff) 0 (MODE_ERASE ||| MODE_WRITE ||| MODE_VERIFY)).1 =
          send_page_verify (List.replicate 256 0xff) 0 ∧
        (page_body (List.replicate 256 0xff) 0 MODE_WRITE).1 =
          send_page_program (List.replicate 256 0xff) 0 ++
            send_page_verify (List.replicate 256 0xff) 0) :=
  ⟨by decide, c4_write_skip (List.replicate 256 0xff) 0 (by decide)⟩

/-! ## The page loop -/

theorem loop_pages_base (buf : List Nat) (addr : Nat) (h : buf.length ≤ 256) :
    loop_pages buf addr = [(buf, addr)] := by
  rw [loop_pages]
  simp [h, Nat.min_eq_left h]

theorem loop_pages_step (buf : List Nat) (addr : Nat) (h : ¬ buf.length ≤ 256) :
    loop_pages buf addr = (buf.take 256, addr) :: loop_pages (buf.drop 256) (addr + 256) := by
  rw [loop_pages]
  have hm : min buf.length 256 = 256 := Nat.min_eq_right (by omega)
  simp [h, hm]

theorem loop_pages_ne_nil (buf : List Nat) (addr : Nat) : loop_pages buf addr ≠ [] := by
  by_cases hle : buf.length ≤ 256
  · rw [loop_pages_base buf addr hle]
    simp
  · rw [loop_pages_step buf addr hle]
    simp

theorem loop_pages_length (buf : List Nat) (addr : Nat) (h : buf ≠ []) :
    (loop_pages buf addr).length = (buf.length + 255) / 256 := by
  induction buf, addr using loop_pages.induct with
  | case1 buf addr hle =>
    rw [loop_pages_base buf addr hle]
    have h1 : 0 < buf.length := List.length_pos.mpr h
    simp only [List.length_singleton]
    omega
  | case2 buf addr blen hgt ih =>
    rw [loop_pages_step buf addr hgt]
    have hb : blen = 256 := Nat.min_eq_right (by omega)
    rw [hb] at ih
    have hne : buf.drop 256 ≠ [] := by
      apply List.ne_nil_of_length_pos
      simp only [List.length_drop]
      omega
    rw [List.length_cons, ih hne]
    simp only [List.length_drop]
    omega

theorem loop_pages_get (buf : List Nat) (addr : Nat) :
    ∀ k, k < (loop_pages buf addr).length →
      (loop_pages buf addr).getD k ([], 0) =
        ((buf.drop (256 * k)).take 256, addr + 256 * k) := by
  induction buf, addr using loop_pages.induct with
  | case1 buf addr hle =>
    intro k hk
    rw [loop_pages_base buf addr hle] at hk ⊢
    have hk0 : k = 0 := by
      simp only [List.length_singleton] at hk
      omega
    subst hk0
    simp [List.take_of_length_le hle]
  | case2 buf addr blen hgt ih =>
    intro k hk
    have hb : blen = 256 := Nat.min_eq_right (by omega)
    rw [hb] at ih
    rw [loop_pages_step buf addr hgt] at hk ⊢
    cases k with
    | zero => simp
    | succ k =>
      rw [List.getD_cons_succ]
      have hk2 : k < (loop_pages (buf.drop 256) (addr + 256)).length := by
        simp only [List.length_cons] at hk
        omega
      rw [ih k hk2, List.drop_drop]
      have e1 : 256 + 256 * k = 256 * (k + 1) := by ring
      have e2 : addr + 256 + 256 * k = addr + 256 * (k + 1) := by ring
      rw [e1, e2]

theorem list_getD_of_lt {α : Type} (l : List α) (n : Nat) (d : α) (h : n < l.length) :
    l.getD n d = l[n] := by
  rw [List.getD_eq_getElem?_getD, List.getElem?_eq_getElem h]
  rfl

theorem loop_pages_last_length (buf : List Nat) (addr : Nat) (h : buf ≠ []) :
    ((loop_pages buf addr).getLast?).map (fun pa => pa.1.length) =
      some (if buf.length % 256 = 0 then 256 else buf.length % 256) := by
  have h0 : 0 < buf.length := List.length_pos.mpr h
  have hlen := loop_pages_length buf addr h
  have hpos : 0 < (loop_pages buf addr).length :=
    List.length_pos.mpr (loop_pages_ne_nil buf addr)
  have hk : (loop_pages buf addr).length - 1 < (loop_pages buf addr).length := by omega
  have hget := loop_pages_get buf addr ((loop_pages buf addr).length - 1) hk
  rw [list_getD_of_lt _ _ _ hk] at hget
  rw [List.getLast?_eq_getElem?, List.getElem?_eq_getElem hk, hget]
  rw [Option.map_some']
  rw [Option.some_inj]
  simp only [List.length_take, List.length_drop]
  rw [hlen]
  by_cases hc : buf.length % 256 = 0
  · rw [if_pos hc]
    omega
  · rw [if_neg hc]
    omega

/-- C5: for every non-empty buffer the page loop runs exactly
ceil(len / 256) iterations; iteration k processes page
(buf.drop (256 k)).take 256 — that is, blen = min(remaining, 256)
bytes — at address addr + 256 k, in ascending address order; and the
final page length is len % 256, or 256 when 256 divides len. -/
theorem c5_loop_iteration_count (buf : List Nat) (addr : Nat) (h : buf ≠ []) :
    (loop_pages buf addr).length = (buf.length + 255) / 256 ∧
      (∀ k, k < (loop_pages buf addr).length →
        (loop_pages buf addr).getD k ([], 0) =
          ((buf.drop (256 * k)).take 256, addr + 256 * k) ∧
        ((loop_pages buf addr).getD k ([], 0)).1.length =
          min (buf.length - 256 * k) 256) ∧
      ((loop_pages buf addr).getLast?).map (fun pa => pa.1.length) =
        some (if buf.length % 256 = 0 then 256 else buf.length % 256) := by
  refine ⟨loop_pages_length buf addr h, ?_, loop_pages_last_length buf addr h⟩
  intro k hk
  have hget := loop_pages_get buf addr k hk
  refine ⟨hget, ?_⟩
  rw [hget]
  simp only [List.length_take, List.length_drop]
  omega

/-- Witness for C5 at the one-byte buffer [1] and address 0. -/
theorem c5_loop_iteration_count_witness :
    (([1] : List Nat) ≠ []) ∧
      ((loop_pages [1] 0).length = (([1] : List Nat).length + 255) / 256 ∧
        (∀ k, k < (loop_pages [1] 0).length →
          (loop_pages [1] 0).getD k ([], 0) =
            ((([1] : List Nat).drop (256 * k)).take 256, 0 + 256 * k) ∧
          ((loop_pages [1] 0).getD k ([], 0)).1.length =
            min (([1] : List Nat).length - 256 * k) 256) ∧
        ((loop_pages [1] 0).getLast?).map (fun pa => pa.1.length) =
          some (if ([1] : List Nat).length % 256 = 0 then 256
            else ([1] : List Nat).length % 256)) :=
  ⟨by decide, c5_loop_iteration_count [1] 0 (by decide)⟩

/-- The loop emits, page by page, the lines of `page_body`, and the
final `rc` is `some 0` exactly when some page ran a program or verify
step, the incoming `rc` otherwise. -/
theorem page_loop_eq (buf : List Nat) (addr mode : Nat) (rc : Option Int) :
    page_loop buf addr mode rc =
      ((loop_pages buf addr).flatMap (fun pa => (page_body pa.1 pa.2 mode).1),
        if (loop_pages buf addr).any (fun pa => (page_body pa.1 pa.2 mode).2) then some 0
        else rc) := by
  induction buf, addr using loop_pages.induct generalizing rc with
  | case1 buf addr hle =>
    rw [page_loop, loop_pages_base buf addr hle]
    simp [hle, Nat.min_eq_left hle]
  | case2 buf addr blen hgt ih =>
    have hm : min buf.length 256 = 256 := Nat.min_eq_right (by omega)
    have hb : blen = 256 := hm
    rw [hb] at ih
    rw [page_loop, loop_pages_step buf addr hgt]
    simp only [hm, hgt, dite_false]
    rw [ih]
    simp only [List.flatMap_cons, List.any_cons]
    have key : ∀ (a b : Bool) (r : Option Int),
        (if b then some 0 else if a then some 0 else r) =
          (if (a || b) then some 0 else r) := by
      intro a b r
      cases a <;> cases b <;> simp
    exact congrArg _ (key _ _ _)

/-- Unfolding of `generate_svf` into preamble, loop output and final
reset line. -/
theorem generate_svf_eq (buf : List Nat) (addr mode : Nat) :
    generate_svf buf addr mode =
      (preamble mode ++ (page_loop buf addr mode none).1 ++ trst true,
        (page_loop buf addr mode none).2) := rfl

/-- C10: `generate_svf` returns the local `rc` unassigned (modelled
`none`, the C indeterminate value) exactly when no page ran a program or
verify step, and returns 0 as soon as at least one step ran; in
particular a pure-ERASE run always returns the unassigned `rc`. -/
theorem c10_rc_unassigned (buf : List Nat) (addr mode : Nat) :
    (generate_svf buf addr mode).2 =
      (if (loop_pages buf addr).any (fun pa => (page_body pa.1 pa.2 mode).2) then some 0
       else none) ∧
      (generate_svf buf addr MODE_ERASE).2 = none := by
  constructor
  · show (page_loop buf addr mode none).2 = _
    rw [page_loop_eq]
  · show (page_loop buf addr MODE_ERASE none).2 = none
    rw [page_loop_eq]
    have hall : ∀ pa : List Nat × Nat, (page_body pa.1 pa.2 MODE_ERASE).2 = false := by
      intro pa
      rw [page_body_snd]
      have e1 : (MODE_ERASE &&& MODE_WRITE != 0) = false := by decide
      have e2 : (MODE_ERASE &&& MODE_VERIFY != 0) = false := by decide
      rw [e1, e2]
      simp
    have hany : (loop_pages buf addr).any (fun pa => (page_body pa.1 pa.2 MODE_ERASE).2) =
        false := by
      rw [List.any_eq_false]
      intro pa _
      rw [hall pa]
      simp
    rw [hany]
    simp

/-- C9: with an empty buffer the page loop still runs exactly once, on a
zero-length page at the base address, instead of being skipped:
WRITE alone emits the program block (whose 256 data bytes are all 0xff)
followed by the verify block; ERASE|WRITE emits nothing for the page
(the empty page is vacuously all-ones); VERIFY emits the verify
block. -/
theorem c9_empty_buffer (addr : Nat) :
    loop_pages [] addr = [([], addr)] ∧
      (create_page_pattern [] addr PAGE_OP_PROGRAM_TDI).data = List.replicate 256 0xff ∧
      page_loop [] addr MODE_WRITE none =
        (send_page_program [] addr ++ send_page_verify [] addr, some 0) ∧
      page_loop [] addr (MODE_ERASE ||| MODE_WRITE) none = ([], none) ∧
      page_loop [] addr MODE_VERIFY none = (send_page_verify [] addr, some 0) := by
  have hbase : loop_pages ([] : List Nat) addr = [([], addr)] :=
    loop_pages_base [] addr (by simp)
  refine ⟨hbase, create_page_pattern_nil_data addr PAGE_OP_PROGRAM_TDI, ?_, ?_, ?_⟩
  · rw [page_loop_eq, hbase]
    simp only [List.flatMap_cons, List.flatMap_nil, List.append_nil, List.any_cons,
      List.any_nil, Bool.or_false]
    rw [page_body_fst, page_body_snd]
    simp only [List.all_nil]
    have hw : (MODE_WRITE &&& MODE_WRITE != 0 &&
        (!(MODE_WRITE &&& MODE_ERASE != 0) || !true)) = true := by decide
    have hv : (MODE_WRITE &&& MODE_VERIFY != 0 ||
        (MODE_WRITE &&& MODE_WRITE != 0 &&
          (MODE_WRITE &&& MODE_WRITE != 0 &&
            (!(MODE_WRITE &&& MODE_ERASE != 0) || !true)))) = true := by decide
    simp only [hv, hw]
    simp
    intro h1 h2
    exact absurd h2 (by decide)
  · rw [page_loop_eq, hbase]
    simp only [List.flatMap_cons, List.flatMap_nil, List.append_nil, List.any_cons,
      List.any_nil, Bool.or_false]
    rw [page_body_fst, page_body_snd]
    simp only [List.all_nil]
    have hv : ((MODE_ERASE ||| MODE_WRITE) &&& MODE_VERIFY != 0 ||
        ((MODE_ERASE ||| MODE_WRITE) &&& MODE_WRITE != 0 &&
          ((MODE_ERASE ||| MODE_WRITE) &&& MODE_WRITE != 0 &&
            (!((MODE_ERASE ||| MODE_WRITE) &&& MODE_ERASE != 0) || !true)))) = false := by
      decide
    have hw : ((MODE_ERASE ||| MODE_WRITE) &&& MODE_WRITE != 0 &&
        (!((MODE_ERASE ||| MODE_WRITE) &&& MODE_ERASE != 0) || !true)) = false := by decide
    simp only [hv, hw]
    simp
    constructor
    · intro hx
      exact absurd (by decide) hx
    · decide
  · rw [page_loop_eq, hbase]
    simp only [List.flatMap_cons, List.flatMap_nil, List.append_nil, List.any_cons,
      List.any_nil, Bool.or_false]
    rw [page_body_fst, page_body_snd]
    simp only [List.all_nil]
    have hv : (MODE_VERIFY &&& MODE_VERIFY != 0 ||
        (MODE_VERIFY &&& MODE_WRITE != 0 &&
          (MODE_VERIFY &&& MODE_WRITE != 0 &&
            (!(MODE_VERIFY &&& MODE_ERASE != 0) || !true)))) = true := by decide
    have hw : (MODE_VERIFY &&& MODE_WRITE != 0 &&
        (!(MODE_VERIFY &&& MODE_ERASE != 0) || !true)) = false := by decide
    simp only [hv, hw]
    simp
    constructor
    · intro hx
      exact absurd hx (by decide)
    · decide

/-- C1 counterexample: at the one-byte input [0], address 0 and mode
WRITE, the first emitted line is not the line `TRST ON;`. -/
theorem c1_counterexample_first_line :
    (generate_svf [0] 0 MODE_WRITE).1.head? ≠ some "TRST ON;" := by
  show (preamble MODE_WRITE ++ (page_loop [0] 0 MODE_WRITE none).1 ++ trst true).head? ≠ _
  simp [preamble, trst, set_frequency, write_enable]

/-- C1 (amended): for every run of `generate_svf` the first emitted line
is `TRST OFF;` (the `trst(0)` call), and the final line — reached when
the page loop completes, which it always does — is `TRST ON;` (the
`trst(1)` call); the C `trst` maps 1 to `TRST ON;` and 0 to
`TRST OFF;`. -/
theorem c1_first_line_off_last_line_on (buf : List Nat) (addr mode : Nat) :
    (generate_svf buf addr mode).1.head? = some "TRST OFF;" ∧
      ((generate_svf buf addr mode).1.filter (fun l => l != "")).getLast? =
        some "TRST ON;" := by
  constructor
  · show (preamble mode ++ (page_loop buf addr mode none).1 ++ trst true).head? = _
    simp [preamble, trst, set_frequency, write_enable]
  · show ((preamble mode ++ (page_loop buf addr mode none).1 ++ trst true).filter
        (fun l => l != "")).getLast? = _
    rw [List.filter_append]
    have hf : (trst true).filter (fun l => l != "") = ["TRST ON;"] := rfl
    rw [hf]
    exact List.getLast?_concat _

/-! ## Hex dump rendering -/

theorem hex_char_mem (n : Nat) (h : n < 16) : hex_char n ∈ hex_lower_chars := by
  have hall : ∀ m, m < 16 → hex_char m ∈ hex_lower_chars := by decide
  exact hall n h

theorem pattern_bytes_lt (buf : List Nat) (pa op : Nat) :
    ∀ b ∈ pattern_bytes (create_page_pattern buf pa op), b < 256 := by
  intro b hb
  rcases List.mem_append.mp hb with h | h
  · simp only [create_page_pattern] at h
    rcases List.mem_append.mp h with h2 | h2
    · have := List.eq_of_mem_replicate h2
      omega
    · rw [List.mem_reverse] at h2
      obtain ⟨a, -, rfl⟩ := List.mem_map.mp h2
      exact reverse_bits_8_lt a
  · simp only [le_bytes_32, List.mem_cons, List.not_mem_nil, or_false] at h
    have hle : ∀ x : Nat, x &&& 0xff ≤ 0xff := fun x => Nat.and_le_right
    rcases h with rfl | rfl | rfl | rfl <;>
      exact Nat.lt_of_le_of_lt (hle _) (by omega)

theorem hexdump_all_lower (buf : List Nat) (u : Bool) (h : ∀ b ∈ buf, b < 256) :
    ∀ c ∈ (hexdump buf u).data, c ∈ hex_lower_chars := by
  induction buf with
  | nil =>
    intro c hc
    rw [show (hexdump [] u).data = [] from rfl] at hc
    cases hc
  | cons x xs ih =>
    intro c hc
    rw [show (hexdump (x :: xs) u).data =
        byte_hex_chars x ++ (hexdump xs u).data from rfl] at hc
    rcases List.mem_append.mp hc with h1 | h1
    · have hx : x < 256 := h x (List.mem_cons_self x xs)
      simp only [byte_hex_chars, List.mem_cons, List.not_mem_nil, or_false] at h1
      rcases h1 with rfl | rfl
      · exact hex_char_mem _ (by omega)
      · exact hex_char_mem _ (by omega)
    · exact ih (fun b hb => h b (List.mem_cons_of_mem _ hb)) c h1

theorem hexdump_length (buf : List Nat) (u : Bool) :
    (hexdump buf u).length = 2 * buf.length := by
  induction buf with
  | nil => rfl
  | cons x xs ih =>
    have hstep : (hexdump (x :: xs) u).length = 2 + (hexdump xs u).length := by
      show (byte_hex_chars x ++ (hexdump xs u).data).length = _
      rw [List.length_append]
      rfl
    rw [hstep, ih, List.length_cons]
    ring

theorem pattern_bytes_length (buf : List Nat) (pa op : Nat) (hL : buf.length ≤ 256) :
    (pattern_bytes (create_page_pattern buf pa op)).length = 260 := by
  rw [pattern_bytes, List.length_append, create_page_pattern_data_length buf pa op hL]
  rfl

/-- C7: the verify emission consists of the four exact lines whose hex
parts are `hexdump` of the 260 pattern bytes in storage order (data
bytes then `addr_and_op` bytes, not re-reversed); `hexdump` ignores its
uppercase flag, so the TDI and MASK dumps (called with `true`) render
exactly as the lowercase dumps; every character of every dump is a
lowercase hex digit, two digits per byte (520 characters for the
260-byte pattern), for every input page and address. -/
theorem c7_hexdump_lowercase (buf : List Nat) (addr : Nat) (hL : buf.length ≤ 256) :
    send_page_verify buf addr =
      ["! Verify page: 0x" ++ hex_32 addr,
       "SDR 2080 TDI (" ++
         hexdump (pattern_bytes (create_page_pattern [] addr PAGE_OP_VERIFY_TDI)) true ++ ")",
       "TDO (" ++
         hexdump (pattern_bytes (create_page_pattern buf addr PAGE_OP_VERIFY_TDO)) false ++ ")",
       "MASK (" ++
         hexdump (pattern_bytes (create_page_pattern [] addr PAGE_OP_VERIFY_MASK)) true ++
         ");"] ∧
      (∀ l : List Nat, ∀ u : Bool, hexdump l u = hexdump l false) ∧
      (∀ c ∈ (hexdump (pattern_bytes (create_page_pattern [] addr PAGE_OP_VERIFY_TDI)) true).data,
        c ∈ hex_lower_chars) ∧
      (∀ c ∈ (hexdump (pattern_bytes (create_page_pattern buf addr PAGE_OP_VERIFY_TDO)) false).data,
        c ∈ hex_lower_chars) ∧
      (∀ c ∈ (hexdump (pattern_bytes (create_page_pattern [] addr PAGE_OP_VERIFY_MASK)) true).data,
        c ∈ hex_lower_chars) ∧
      (∀ c ∈
          (hexdump (pattern_bytes (create_page_pattern buf addr PAGE_OP_PROGRAM_TDI)) false).data,
        c ∈ hex_lower_chars) ∧
      (hexdump (pattern_bytes (create_page_pattern buf addr PAGE_OP_VERIFY_TDO)) false).length =
        520 ∧
      (hexdump (pattern_bytes (create_page_pattern buf addr PAGE_OP_PROGRAM_TDI)) false).length =
        520 := by
  refine ⟨rfl, fun l u => rfl, hexdump_all_lower _ _ (pattern_bytes_lt [] addr _),
    hexdump_all_lower _ _ (pattern_bytes_lt buf addr _),
    hexdump_all_lower _ _ (pattern_bytes_lt [] addr _),
    hexdump_all_lower _ _ (pattern_bytes_lt buf addr _), ?_, ?_⟩
  · rw [hexdump_length, pattern_bytes_length buf addr _ hL]
  · rw [hexdump_length, pattern_bytes_length buf addr _ hL]

/-- Witness for C7 at the empty page and address 0. -/
theorem c7_hexdump_lowercase_witness :
    ([] : List Nat).length ≤ 256 ∧
      (send_page_verify [] 0 =
        ["! Verify page: 0x" ++ hex_32 0,
         "SDR 2080 TDI (" ++
           hexdump (pattern_bytes (create_page_pattern [] 0 PAGE_OP_VERIFY_TDI)) true ++ ")",
         "TDO (" ++
           hexdump (pattern_bytes (create_page_pattern [] 0 PAGE_OP_VERIFY_TDO)) false ++ ")",
         "MASK (" ++
           hexdump (pattern_bytes (create_page_pattern [] 0 PAGE_OP_VERIFY_MASK)) true ++
           ");"] ∧
        (∀ l : List Nat, ∀ u : Bool, hexdump l u = hexdump l false) ∧
        (∀ c ∈ (hexdump (pattern_bytes (create_page_pattern [] 0 PAGE_OP_VERIFY_TDI)) true).data,
          c ∈ hex_lower_chars) ∧
        (∀ c ∈ (hexdump (pattern_bytes (create_page_pattern [] 0 PAGE_OP_VERIFY_TDO)) false).data,
          c ∈ hex_lower_chars) ∧
        (∀ c ∈ (hexdump (pattern_bytes (create_page_pattern [] 0 PAGE_OP_VERIFY_MASK)) true).data,
          c ∈ hex_lower_chars) ∧
        (∀ c ∈
            (hexdump (pattern_bytes (create_page_pattern [] 0 PAGE_OP_PROGRAM_TDI)) false).data,
          c ∈ hex_lower_chars) ∧
        (hexdump (pattern_bytes (create_page_pattern [] 0 PAGE_OP_VERIFY_TDO)) false).length =
          520 ∧
        (hexdump (pattern_bytes (create_page_pattern [] 0 PAGE_OP_PROGRAM_TDI)) false).length =
          520) :=
  ⟨by decide, c7_hexdump_lowercase [] 0 (by decide)⟩

end Bin2svf
